import Mathlib

/-!
# Verification of the appointment-backend (src/main.py, src/schemas.py)

Shallow embedding of the FastAPI backend:
* documents stored in MongoDB collections become Lean structures held in lists
  (insertion order = list order, matching the store's natural order);
* `datetime.now(timezone.utc)` becomes a `Nat` clock ticking once per call
  (ISO-8601 UTC strings of this one format compare lexicographically exactly
  as their instants compare, so `Nat` keys are order-faithful);
* `bson.ObjectId(s)` on a string succeeds exactly for 24 hex characters and
  otherwise raises `InvalidId` — an unhandled (non-HTTPException) error;
  ObjectId equality is modelled as string equality on the raw id (the store
  generates lower-case hex, and every id the claims exercise round-trips
  through the store unchanged);
* HTTPException(code, msg) and the unhandled ObjectId error form `ApiErr`;
* `create_document` / `get_documents` live in database.py, which is not part
  of src/; they are modelled from the spec (§4.1 Persistence Gateway), see
  the doc comments on the corresponding definitions below.
-/

namespace Backend

/-- Python's `needle in haystack` on lists of characters: some suffix of the
haystack starts with the needle. -/
def subAux (needle : List Char) : List Char → Bool
  | [] => needle.isEmpty
  | c :: rest => needle.isPrefixOf (c :: rest) || subAux needle rest

/-- Python's substring test `needle in haystack` on strings. -/
def containsSub (haystack needle : String) : Bool :=
  subAux needle.data haystack.data

/-- Python's `str.lower()`; `Char.toLower` lower-cases the ASCII range, which
covers every keyword the source compares against. -/
def pyLower (s : String) : String :=
  ⟨s.data.map Char.toLower⟩

/-- Hex digit characters, as accepted by `bson.ObjectId`. -/
def isHexChar (c : Char) : Bool :=
  (48 ≤ c.toNat && c.toNat ≤ 57) || (97 ≤ c.toNat && c.toNat ≤ 102) ||
    (65 ≤ c.toNat && c.toNat ≤ 70)

/-- `bson.ObjectId(s)` accepts a string exactly when it is 24 hex characters;
anything else raises `bson.errors.InvalidId`. -/
def isValidObjectId (s : String) : Bool :=
  s.length == 24 && s.data.all isHexChar

/-- Lower-case hex digit for a value `< 16`. -/
def hexChar (n : Nat) : Char :=
  if n < 10 then Char.ofNat (48 + n) else Char.ofNat (97 + (n - 10))

/-- Render a counter as a 24-character lower-case hex string: the model of a
store-generated ObjectId (spec §3: store-generated, unique, immutable). -/
def toHex24 (n : Nat) : String :=
  ⟨(List.range 24).map fun i => hexChar (n / 16 ^ (23 - i) % 16)⟩

/-- The id the store assigns to the `n`-th created document. -/
def genOid (n : Nat) : String :=
  toHex24 n

/-- The canonical (lower-case) hex rendering of `ObjectId(s)` for a valid
24-hex string: bson hex parsing is case-insensitive and ObjectId equality is
on the parsed 12 bytes, so two id strings denote the same ObjectId exactly
when their lower-casings agree.  Stored id fields in the model always hold
the canonical rendering (store-generated ids `genOid` are lower-case, and
every id the code stores is written through this normalisation), mirroring
the store holding parsed ObjectId values. -/
def oidCanon (s : String) : String :=
  pyLower s

/-- One FAQ item `{q, a}`. -/
structure FaqItem where
  q : String
  a : String
deriving DecidableEq

/-- One generated service description `{title, description}`. -/
structure ServiceDesc where
  title : String
  description : String
deriving DecidableEq

/-- A document of the `request` collection (schemas.Request plus the fields
main.py adds: `created_at` on the POST path, `updated_at` on status update). -/
structure RequestDoc where
  oid : String
  name : String
  email : String
  phone : String
  service_id : Option String
  message : Option String
  status : String
  created_at : Option Nat
  updated_at : Option Nat
deriving DecidableEq

/-- A document of the `request_log` collection (main.py, update_status). -/
structure LogDoc where
  oid : String
  request_id : String
  status : String
  timestamp : Nat
deriving DecidableEq

/-- A document of the `business` collection.  Only the onboarding endpoint
creates these, and it always fills every field, so the fields that are
`Optional` in schemas.Business are plain here. -/
structure BusinessDoc where
  oid : String
  owner_name : String
  metier : String
  localisation : String
  services : List String
  horaires : String
  intro_paragraph : String
  faq : List FaqItem
  service_descriptions : List ServiceDesc
  assistant_responses : List String
deriving DecidableEq

/-- A document of the `user` collection (schemas.User). -/
structure UserDoc where
  name : String
  email : String
  password : String
deriving DecidableEq

/-- The persistent store plus the id counter and the clock. -/
structure AppState where
  requests : List RequestDoc
  requestLogs : List LogDoc
  businesses : List BusinessDoc
  users : List UserDoc
  nextOid : Nat
  clock : Nat
deriving DecidableEq

def emptyState : AppState :=
  { requests := [], requestLogs := [], businesses := [], users := [],
    nextOid := 0, clock := 0 }

/-- Errors an endpoint can produce: `HTTPException(code, msg)`, or the
unhandled `bson.errors.InvalidId` raised by `ObjectId(...)` on a string that
is not 24 hex characters. -/
inductive ApiErr where
  | http (code : Nat) (msg : String)
  | invalidObjectId (s : String)
deriving DecidableEq

instance exceptDecEq {ε α : Type} [DecidableEq ε] [DecidableEq α] :
    DecidableEq (Except ε α) := fun x y =>
  match x, y with
  | .ok a, .ok b =>
    if h : a = b then .isTrue (by rw [h]) else .isFalse (by simp [h])
  | .error a, .error b =>
    if h : a = b then .isTrue (by rw [h]) else .isFalse (by simp [h])
  | .ok _, .error _ => .isFalse (by simp)
  | .error _, .ok _ => .isFalse (by simp)

-- ---------------------------------------------------------------------------
-- Content generators (src/main.py lines 46-74): pure templating functions.
-- ---------------------------------------------------------------------------

def generate_intro (nom metier localisation : String) : String :=
  s!"{nom}, {metier} à {localisation}. Prenez rendez-vous facilement : nous répondons vite et organisons tout pour vous. Des prestations de qualité avec un accueil soigné."

def generate_service_descriptions (services : List String) : List ServiceDesc :=
  services.map fun s =>
    let t := pyLower s
    { title := s,
      description := s!"Prestations {t} réalisées avec soin. Conseils personnalisés, durée adaptée, et devis transparent." }

def generate_faq (nom metier localisation horaires : String) : List FaqItem :=
  [ { q := "Quels sont vos horaires ?",
      a := s!"{horaires}. N\x27hésitez pas à nous écrire pour un créneau spécifique." },
    { q := "Où êtes-vous situé ?",
      a := s!"Nous sommes à {localisation}. L\x27adresse exacte sera confirmée lors de la prise de rendez-vous." },
    { q := "Quels services proposez-vous ?",
      a := s!"{metier} — nous proposons des formules adaptées et des prestations sur mesure." },
    { q := "Quels sont les tarifs ?",
      a := "Nos tarifs sont indiqués pour chaque service et confirmés par email." } ]

def generate_assistant_responses (metier : String) : List String :=
  [ "Bonjour ! Comment puis-je vous aider aujourd\x27hui ?",
    s!"Vous cherchez un {metier}? Je peux vous guider et réserver un créneau.",
    "Pour confirmer une demande, partagez votre nom, email et téléphone." ]

-- ---------------------------------------------------------------------------
-- Persistence gateway (database.py, not under src/): modelled from the spec.
-- ---------------------------------------------------------------------------

/-- Modelled from the spec: `create_document` is defined in database.py, which
is not under src/.  Spec §4.1: `create(collection, record) → id` — it persists
the record as given under a store-generated id and returns that id; nothing in
§4.1 stamps timestamps (main.py sets `created_at` itself on the POST path, and
§4.3's sort-key fallback for missing creation timestamps presupposes records
persisted without one).  Specialised to the `request` collection. -/
def create_document_request (st : AppState) (mk : String → RequestDoc) :
    AppState × String :=
  let oid := genOid st.nextOid
  ({ st with requests := st.requests ++ [mk oid], nextOid := st.nextOid + 1 }, oid)

/-- Modelled from the spec: `create_document` (database.py, not under src/),
spec §4.1, specialised to the `business` collection. -/
def create_document_business (st : AppState) (mk : String → BusinessDoc) :
    AppState × String :=
  let oid := genOid st.nextOid
  ({ st with businesses := st.businesses ++ [mk oid], nextOid := st.nextOid + 1 }, oid)

/-- Modelled from the spec: `get_documents` is defined in database.py, which is
not under src/.  Spec §4.1: `list(collection, filter) → sequence of records`
matching an exact key/value filter, in insertion order.  Specialised to the
`request` collection with the only filter main.py uses, `{"status": s}` or
`{}`. -/
def get_documents_request (st : AppState) (statusFilter : Option String) :
    List RequestDoc :=
  match statusFilter with
  | none => st.requests
  | some s => st.requests.filter fun d => d.status == s

-- ---------------------------------------------------------------------------
-- Request endpoints (src/main.py lines 113-167).
-- ---------------------------------------------------------------------------

/-- The body of `POST /api/requests`: schemas.Request.  `status` is a plain
string defaulting to "Nouveau"; the schema declares no enum validation. -/
structure RequestPayload where
  name : String
  email : String
  phone : String
  service_id : Option String := none
  message : Option String := none
  status : String := "Nouveau"
  created_at : Option Nat := none
deriving DecidableEq

/-- `create_request` (main.py lines 113-123): dumps the payload, overwrites
`created_at` with the server clock, persists via `create_document`, and
returns the new id.  The e-mail hook is a log line with no effect. -/
def create_request (st : AppState) (p : RequestPayload) : AppState × String :=
  let st1 := { st with clock := st.clock + 1 }
  create_document_request st1 fun oid =>
    { oid, name := p.name, email := p.email, phone := p.phone,
      service_id := p.service_id, message := p.message, status := p.status,
      created_at := some st.clock, updated_at := none }

/-- Sort key comparison used to model `res.sort(key=lambda x: x.get("created_at",
""), reverse=True)` (main.py line 130): descending by creation time, a missing
timestamp acting as the empty-string key, which is the minimum. -/
def createdKeyGe (a b : RequestDoc) : Bool :=
  match a.created_at, b.created_at with
  | some x, some y => y ≤ x
  | some _, none => true
  | none, some _ => false
  | none, none => true

/-- `list_requests` (main.py lines 125-131): `filt = {"status": status} if
status else {}` — Python truthiness, so `None` and `""` both mean no filter —
then a stable sort, descending by the `created_at` key with `""` as fallback. -/
def list_requests (st : AppState) (status : Option String) : List RequestDoc :=
  let filt : Option String :=
    match status with
    | some s => if s = "" then none else some s
    | none => none
  (get_documents_request st filt).mergeSort createdKeyGe

/-- `get_request` (main.py lines 133-138): `ObjectId(req_id)` raises on a
malformed id; otherwise `find_one` on the parsed ObjectId — matching is on
the parsed bytes, i.e. hex-case-insensitively, hence through `oidCanon` —
and 404 when absent. -/
def get_request (st : AppState) (req_id : String) : Except ApiErr RequestDoc :=
  if isValidObjectId req_id then
    match st.requests.find? (fun d => d.oid == oidCanon req_id) with
    | none => .error (.http 404 "Demande introuvable")
    | some d => .ok d
  else .error (.invalidObjectId req_id)

/-- The three legal status literals (main.py line 145). -/
def okStatuses : List String :=
  ["Nouveau", "Confirmé", "Annulé"]

/-- Replace the first element satisfying `p` (mongo's `update_one` semantics). -/
def updateFirst (p : α → Bool) (f : α → α) : List α → List α
  | [] => []
  | x :: xs => if p x then f x :: xs else x :: updateFirst p f xs

/-- `update_status` (main.py lines 143-162): reject a status outside the
three literals with 400; then `ObjectId(req_id)` raises on a malformed id;
then `update_one` on the parsed ObjectId — matching on the parsed bytes,
hence through `oidCanon` — with 404 when nothing matched (the update is a
no-op then, so checking the match first is equivalent); on success append one
`request_log` entry whose `request_id` is the parsed ObjectId, carrying the
same status and a fresh timestamp, and answer `ok = true`.  The confirmation
e-mail branch is a failure-swallowed log with no state effect. -/
def update_status (st : AppState) (req_id : String) (status : String) :
    Except ApiErr (AppState × Bool) :=
  if status ∈ okStatuses then
    if isValidObjectId req_id then
      if st.requests.any (fun d => d.oid == oidCanon req_id) then
        let st1 := { st with
          requests := updateFirst (fun d => d.oid == oidCanon req_id)
            (fun d => { d with status := status, updated_at := some st.clock })
            st.requests,
          clock := st.clock + 1 }
        let entry : LogDoc :=
          { oid := genOid st1.nextOid, request_id := oidCanon req_id,
            status := status, timestamp := st1.clock }
        let st2 := { st1 with
          requestLogs := st1.requestLogs ++ [entry],
          nextOid := st1.nextOid + 1, clock := st1.clock + 1 }
        .ok (st2, true)
      else .error (.http 404 "Demande introuvable")
    else .error (.invalidObjectId req_id)
  else .error (.http 400 "Statut invalide")

/-- `get_history` (main.py lines 164-167): `ObjectId(req_id)` raises on a
malformed id; otherwise all `request_log` documents whose `request_id`
equals the parsed ObjectId (matching on the parsed bytes, hence through
`oidCanon`), in insertion order. -/
def get_history (st : AppState) (req_id : String) : Except ApiErr (List LogDoc) :=
  if isValidObjectId req_id then
    .ok (st.requestLogs.filter fun l => l.request_id == oidCanon req_id)
  else .error (.invalidObjectId req_id)

-- ---------------------------------------------------------------------------
-- Auth (src/main.py lines 174-179).
-- ---------------------------------------------------------------------------

/-- The success body of `POST /api/auth/login`. -/
structure LoginOk where
  token : String
  user_name : String
  user_email : String
deriving DecidableEq

/-- `login` (main.py lines 174-179): find the first user by email; `if not
user or user.get("password") != payload.password` raises the one 401, shared
by the user-absent and wrong-password cases. -/
def login (st : AppState) (email password : String) : Except ApiErr LoginOk :=
  match st.users.find? (fun u => u.email == email) with
  | none => .error (.http 401 "Identifiants invalides")
  | some u =>
    if u.password ≠ password then .error (.http 401 "Identifiants invalides")
    else .ok { token := "demo-token", user_name := u.name, user_email := u.email }

-- ---------------------------------------------------------------------------
-- Onboarding and content retrieval (src/main.py lines 182-220).
-- ---------------------------------------------------------------------------

structure OnboardingPayload where
  nom : String
  metier : String
  localisation : String
  services : List String
  horaires : String
deriving DecidableEq

/-- The response body of `POST /api/onboarding`. -/
structure OnboardingResp where
  id : String
  intro : String
  faq : List FaqItem
  services : List ServiceDesc
  assistant : List String
deriving DecidableEq

/-- `onboarding` (main.py lines 182-202): generate the four content pieces,
persist a full Business document, return the id and the content. -/
def onboarding (st : AppState) (p : OnboardingPayload) :
    AppState × OnboardingResp :=
  let intro := generate_intro p.nom p.metier p.localisation
  let service_desc := generate_service_descriptions p.services
  let faq := generate_faq p.nom p.metier p.localisation p.horaires
  let assistant_res := generate_assistant_responses p.metier
  let (st1, bid) := create_document_business st fun oid =>
    { oid, owner_name := p.nom, metier := p.metier,
      localisation := p.localisation, services := p.services,
      horaires := p.horaires, intro_paragraph := intro, faq := faq,
      service_descriptions := service_desc,
      assistant_responses := assistant_res }
  (st1, { id := bid, intro := intro, faq := faq, services := service_desc,
          assistant := assistant_res })

/-- The dict returned by `GET /api/content`.  Neither branch of `get_content`
puts an "assistant" key in it, so `assistant` is `none` in both; the optional
profile echo fields are absent (`none`) on the placeholder branch. -/
structure Content where
  intro : String
  faq : List FaqItem
  services : List ServiceDesc
  horaires : Option String
  localisation : Option String
  metier : Option String
  owner : Option String
  assistant : Option (List String)
deriving DecidableEq

/-- `find_one(sort=[("_id", -1)])` on the `business` collection: the most
recently created profile.  Store-generated ObjectIds increase monotonically
(spec §4.5: "most recent by descending id ... holds under a monotonically
increasing id scheme"), and `create_document_business` appends with a fresh
increasing id, so the maximal id is the last inserted document. -/
def latestBusiness (l : List BusinessDoc) : Option BusinessDoc :=
  l.getLast?

/-- `get_content` (main.py lines 204-220): the latest business profile, or
placeholder content generated from hard-coded inputs. -/
def get_content (st : AppState) : Content :=
  match latestBusiness st.businesses with
  | none =>
    { intro := generate_intro "Votre Nom" "Votre métier" "Votre ville",
      faq := generate_faq "" "" "" "Lun-Ven 9h-18h",
      services := generate_service_descriptions
        ["Consultation", "Accompagnement", "Séance"],
      horaires := none, localisation := none, metier := none, owner := none,
      assistant := none }
  | some b =>
    { intro := b.intro_paragraph, faq := b.faq,
      services := b.service_descriptions, horaires := some b.horaires,
      localisation := some b.localisation, metier := some b.metier,
      owner := some b.owner_name, assistant := none }

-- ---------------------------------------------------------------------------
-- Assistant (src/main.py lines 230-263).
-- ---------------------------------------------------------------------------

/-- The body of `POST /api/assistant`. -/
structure ChatMessage where
  message : String
  name : Option String := none
  email : Option String := none
  phone : Option String := none
  service : Option String := none
deriving DecidableEq

def hoursKeywords : List String := ["horaire", "heures", "ouvert"]
def priceKeywords : List String := ["prix", "tarif"]
def locKeywords : List String := ["où", "adresse", "localisation", "lieu"]

/-- `any(k in text for k in ks)`. -/
def anyKeyword (ks : List String) (text : String) : Bool :=
  ks.any fun k => containsSub text k

/-- `next((f["a"] for f in faq if "horaire" in f["q"].lower()), None)`. -/
def faqHoursLookup (faq : List FaqItem) : Option String :=
  (faq.find? fun f => containsSub (pyLower f.q) "horaire").map fun f => f.a

/-- `next((f["a"] for f in faq if "où" in f["q"].lower() or "situ" in
f["a"].lower()), None)`. -/
def faqLocLookup (faq : List FaqItem) : Option String :=
  (faq.find? fun f =>
    containsSub (pyLower f.q) "où" || containsSub (pyLower f.a) "situ").map
    fun f => f.a

/-- The fixed pricing deflection reply (main.py line 242). -/
def pricingReply : String :=
  "Nos tarifs varient selon le service. Dites-moi le service souhaité et je vous oriente."

/-- The `for item in content.get("faq", [])` loop of the assistant (main.py
lines 237-246).  Every branch `break`s on the first iteration and none of the
conditions mentions the loop variable, so the loop is: if the FAQ list is
empty do nothing; otherwise run the three keyword branches once, in order,
each possibly leaving `reply` at `None` when its inner lookup misses. -/
def faqLoopStep (c : Content) (text : String) : Option String :=
  if c.faq.isEmpty then none
  else if anyKeyword hoursKeywords text then faqHoursLookup c.faq
  else if anyKeyword priceKeywords text then some pricingReply
  else if anyKeyword locKeywords text then faqLocLookup c.faq
  else none

/-- Python falsiness of the `reply` variable: `None` or the empty string. -/
def pyFalsy : Option String → Bool
  | none => true
  | some s => s = ""

/-- Step 4 (main.py lines 248-252): on a service keyword, list the current
service titles, comma-joined. -/
def serviceStep (c : Content) (text : String) : Option String :=
  if containsSub text "service" || containsSub text "choisir" ||
      containsSub text "conseil" then
    some ("Voici nos services: " ++
      String.intercalate ", " (c.services.map fun s => s.title) ++
      ". Quel vous intéresse ?")
  else none

/-- Step 5 (main.py line 255): `content.get("assistant", ["Je suis là pour
vous aider !"])[0]`.  `get_content` never returns an "assistant" key, so the
default list's first element is what this produces whenever `c.assistant` is
`none`.  (Python's `[0]` would raise on `some []`; that value is unreachable
from `get_content`, and `headD` keeps the model total there.) -/
def fallbackGreeting (c : Content) : String :=
  (c.assistant.getD ["Je suis là pour vous aider !"]).headD
    "Je suis là pour vous aider !"

/-- The reply-selection logic of the assistant over already-lowered text. -/
def assistant_reply (c : Content) (text : String) : String :=
  let r0 := faqLoopStep c text
  let r1 := if pyFalsy r0 then
      match serviceStep c text with
      | some r => some r
      | none => r0
    else r0
  if pyFalsy r1 then fallbackGreeting c
  else r1.getD ""

/-- The response body of `POST /api/assistant`. -/
structure AssistantResp where
  reply : String
  created_request_id : Option String
deriving DecidableEq

/-- Python truthiness of an optional string field. -/
def pyTruthy : Option String → Bool
  | none => false
  | some s => s ≠ ""

/-- `assistant` (main.py lines 230-263): pick a reply from the current
content; when `name`, `email` and `phone` are all truthy, build a
schemas.Request — `status` defaulting to "Nouveau", `created_at` left unset —
and persist it directly through `create_document` (database.py, modelled from
spec §4.1: persisted as given, no timestamp stamped). -/
def assistant (st : AppState) (msg : ChatMessage) : AppState × AssistantResp :=
  let content := get_content st
  let text := pyLower msg.message
  let reply := assistant_reply content text
  if pyTruthy msg.name && pyTruthy msg.email && pyTruthy msg.phone then
    let (st1, rid) := create_document_request st fun oid =>
      { oid, name := msg.name.getD "", email := msg.email.getD "",
        phone := msg.phone.getD "", service_id := none,
        message := some msg.message, status := "Nouveau",
        created_at := none, updated_at := none }
    (st1, { reply := reply, created_request_id := some rid })
  else (st, { reply := reply, created_request_id := none })

-- ---------------------------------------------------------------------------
-- Helper lemmas.
-- ---------------------------------------------------------------------------

theorem isHexChar_hexChar_mod (x : Nat) : isHexChar (hexChar (x % 16)) = true := by
  have h : x % 16 < 16 := Nat.mod_lt _ (by decide)
  have hall : ∀ m, m < 16 → isHexChar (hexChar m) = true := by decide
  exact hall _ h

theorem isValidObjectId_genOid (n : Nat) : isValidObjectId (genOid n) = true := by
  rw [genOid, toHex24, isValidObjectId, Bool.and_eq_true]
  constructor
  · show ((((List.range 24).map fun i => hexChar (n / 16 ^ (23 - i) % 16)).length : Nat) == 24) = true
    simp [List.length_map, List.length_range]
  · show (((List.range 24).map fun i => hexChar (n / 16 ^ (23 - i) % 16)).all isHexChar) = true
    rw [List.all_eq_true]
    intro c hc
    rw [List.mem_map] at hc
    obtain ⟨i, _, rfl⟩ := hc
    exact isHexChar_hexChar_mod _

theorem toLower_hexChar_mod (x : Nat) :
    Char.toLower (hexChar (x % 16)) = hexChar (x % 16) := by
  have h : x % 16 < 16 := Nat.mod_lt _ (by decide)
  have hall : ∀ m, m < 16 → Char.toLower (hexChar m) = hexChar m := by decide
  exact hall _ h

/-- Store-generated ids are already in canonical (lower-case) hex form. -/
theorem oidCanon_genOid (n : Nat) : oidCanon (genOid n) = genOid n := by
  rw [oidCanon, pyLower, genOid, toHex24]
  show (⟨((List.range 24).map fun i =>
    hexChar (n / 16 ^ (23 - i) % 16)).map Char.toLower⟩ : String) = _
  rw [List.map_map]
  congr 1
  apply List.map_congr_left
  intro i _
  exact toLower_hexChar_mod _

theorem createdKeyGe_trans (a b c : RequestDoc) :
    createdKeyGe a b = true → createdKeyGe b c = true → createdKeyGe a c = true := by
  rw [createdKeyGe, createdKeyGe, createdKeyGe]
  cases a.created_at <;> cases b.created_at <;> cases c.created_at <;> simp <;> omega

theorem createdKeyGe_total (a b : RequestDoc) :
    (createdKeyGe a b || createdKeyGe b a) = true := by
  rw [createdKeyGe, createdKeyGe]
  cases a.created_at <;> cases b.created_at <;> simp <;> omega

theorem createdKeyGe_none_right (a b : RequestDoc) (h : createdKeyGe a b = true)
    (ha : a.created_at = none) : b.created_at = none := by
  rw [createdKeyGe, ha] at h
  cases hb : b.created_at with
  | none => rfl
  | some y => rw [hb] at h; simp at h

theorem serviceStep_ne_empty (c : Content) (text r : String)
    (h : serviceStep c text = some r) : r ≠ "" := by
  rw [serviceStep] at h
  split at h
  · simp only [Option.some.injEq] at h
    intro h0
    rw [h0] at h
    have hlen := congrArg String.length h
    rw [String.length_append, String.length_append] at hlen
    have h20 : ("Voici nos services: ").length = 20 := rfl
    have hz : ("" : String).length = 0 := rfl
    omega
  · exact absurd h (by simp)

/-- When the FAQ-loop phase leaves `reply` unset, the endpoint's reply is the
service-suggestion step's output or, failing that, the greeting fallback. -/
theorem assistant_reply_of_faqLoopStep_none (c : Content) (text : String)
    (h : faqLoopStep c text = none) :
    assistant_reply c text =
      (match serviceStep c text with
       | some r => r
       | none => fallbackGreeting c) := by
  rw [assistant_reply, h]
  cases hs : serviceStep c text with
  | none => simp [pyFalsy]
  | some r =>
    have hr : r ≠ "" := serviceStep_ne_empty c text r hs
    simp [pyFalsy, hr]

-- ---------------------------------------------------------------------------
-- Concrete states used by witnesses and counterexamples.
-- ---------------------------------------------------------------------------

/-- A request persisted with a valid store id and status "Nouveau". -/
def reqW : RequestDoc :=
  { oid := genOid 0, name := "A", email := "a@x.com", phone := "0600000000",
    service_id := none, message := none, status := "Nouveau",
    created_at := some 0, updated_at := none }

/-- A store holding exactly `reqW`. -/
def stW : AppState :=
  { emptyState with requests := [reqW], nextOid := 1, clock := 1 }

/-- A store holding one user. -/
def stWUser : AppState :=
  { emptyState with
    users := [{ name := "Admin", email := "admin@x.com", password := "s3cret" }] }

-- ---------------------------------------------------------------------------
-- C1
-- ---------------------------------------------------------------------------

/-- C1: the claim says every persisted Request has a status among
{"Nouveau","Confirmé","Annulé"} and that any other status is rejected before
persistence.  The code violates this on the `POST /api/requests` path:
schemas.Request declares `status` as a plain string (the enum appears only in
the field's description), and `create_request` persists the payload as-is, so
the status "Pending" ends up in the store. -/
theorem C1_create_request_persists_invalid_status :
    ((create_request emptyState
        { name := "A", email := "a@x.com", phone := "0600000000",
          status := "Pending" }).1.requests.map fun d => d.status) =
      ["Pending"] ∧ "Pending" ∉ okStatuses := by
  constructor
  · rfl
  · decide

-- ---------------------------------------------------------------------------
-- C2
-- ---------------------------------------------------------------------------

/-- C2 counterexample: the claim as stated says a valid new status together
with an id matching no Request fails with HTTP 404.  At id "zzz" (which no
Request can match) and status "Confirmé", `update_status` instead raises the
unhandled ObjectId error, not the 404 HTTPException. -/
theorem C2_counterexample :
    update_status emptyState "zzz" "Confirmé" =
      .error (.invalidObjectId "zzz") ∧
    update_status emptyState "zzz" "Confirmé" ≠
      .error (.http 404 "Demande introuvable") := by
  have h : update_status emptyState "zzz" "Confirmé" =
      .error (.invalidObjectId "zzz") := rfl
  exact ⟨h, by rw [h]; simp⟩

/-- C2 (amended): for every `setStatus(id, newStatus)` call: a status outside
the three literals fails with 400 (checked first, for every id); otherwise an
id that is not a well-formed 24-hex ObjectId string raises the unhandled
ObjectId error; otherwise an id whose parsed ObjectId (hex parsing is
case-insensitive, so comparison is through `oidCanon`) matches no stored
Request fails with 404; otherwise the call succeeds and returns ok. -/
theorem C2_update_status_cases (st : AppState) (rid s : String) :
    (s ∉ okStatuses →
      update_status st rid s = .error (.http 400 "Statut invalide")) ∧
    (s ∈ okStatuses → isValidObjectId rid = false →
      update_status st rid s = .error (.invalidObjectId rid)) ∧
    (s ∈ okStatuses → isValidObjectId rid = true →
      (∀ d ∈ st.requests, d.oid ≠ oidCanon rid) →
      update_status st rid s = .error (.http 404 "Demande introuvable")) ∧
    (s ∈ okStatuses → isValidObjectId rid = true →
      (∃ d ∈ st.requests, d.oid = oidCanon rid) →
      ∃ st', update_status st rid s = .ok (st', true)) := by
  refine ⟨fun h => ?_, fun h1 h2 => ?_, fun h1 h2 h3 => ?_, fun h1 h2 h3 => ?_⟩
  · rw [update_status, if_neg h]
  · rw [update_status, if_pos h1, if_neg (by simp [h2])]
  · have hany : (st.requests.any fun d => d.oid == oidCanon rid) = false := by
      rw [List.any_eq_false]
      intro d hd
      simp [h3 d hd]
    rw [update_status, if_pos h1, if_pos h2, if_neg (by simp [hany])]
  · have hany : (st.requests.any fun d => d.oid == oidCanon rid) = true := by
      rw [List.any_eq_true]
      obtain ⟨d, hd, hoid⟩ := h3
      exact ⟨d, hd, by simp [hoid]⟩
    rw [update_status, if_pos h1, if_pos h2, if_pos hany]
    exact ⟨_, rfl⟩

/-- A request whose id contains a hex letter, stored in canonical lower-case
form (`genOid 10` ends in "a"); exercises case-insensitive id matching. -/
def reqHexA : RequestDoc :=
  { oid := genOid 10, name := "B", email := "b@x.com", phone := "0700000000",
    service_id := none, message := none, status := "Nouveau",
    created_at := some 0, updated_at := none }

/-- A store holding exactly `reqHexA`. -/
def stWA : AppState :=
  { emptyState with requests := [reqHexA], nextOid := 11, clock := 1 }

/-- C2 witness: each branch of `C2_update_status_cases` at a concrete store,
including success through an upper-case alias ("...00A") of a stored
lower-case id ("...00a"). -/
theorem C2_witness :
    update_status stW (genOid 0) "Bogus" =
      .error (.http 400 "Statut invalide") ∧
    update_status stW "zz" "Annulé" = .error (.invalidObjectId "zz") ∧
    update_status stW (genOid 5) "Annulé" =
      .error (.http 404 "Demande introuvable") ∧
    (∃ st', update_status stW (genOid 0) "Annulé" = .ok (st', true)) ∧
    (∃ st', update_status stWA "00000000000000000000000A" "Confirmé" =
      .ok (st', true)) :=
  ⟨(C2_update_status_cases stW (genOid 0) "Bogus").1 (by decide),
   (C2_update_status_cases stW "zz" "Annulé").2.1 (by decide) (by decide),
   (C2_update_status_cases stW (genOid 5) "Annulé").2.2.1 (by decide)
     (by decide) (by decide),
   (C2_update_status_cases stW (genOid 0) "Annulé").2.2.2 (by decide)
     (by decide) ⟨reqW, by decide, by decide⟩,
   (C2_update_status_cases stWA "00000000000000000000000A" "Confirmé").2.2.2
     (by decide) (by decide) ⟨reqHexA, by decide, by decide⟩⟩

-- ---------------------------------------------------------------------------
-- C8
-- ---------------------------------------------------------------------------

/-- C8: a wrong password for an existing email and a non-existent email both
fail with the same `HTTPException(401, "Identifiants invalides")`, so the two
failures are indistinguishable to the caller. -/
theorem C8_login_unauthorized_indistinguishable (st : AppState)
    (e1 p1 e2 p2 : String)
    (hexists : ∃ u ∈ st.users, u.email = e1)
    (hwrong : ∀ u ∈ st.users, u.email = e1 → u.password ≠ p1)
    (habsent : ∀ u ∈ st.users, u.email ≠ e2) :
    login st e1 p1 = .error (.http 401 "Identifiants invalides") ∧
    login st e2 p2 = .error (.http 401 "Identifiants invalides") ∧
    login st e1 p1 = login st e2 p2 := by
  have h2 : login st e2 p2 = .error (.http 401 "Identifiants invalides") := by
    have hf : st.users.find? (fun u => u.email == e2) = none := by
      rw [List.find?_eq_none]
      intro u hu
      simp [habsent u hu]
    rw [login, hf]
  have h1 : login st e1 p1 = .error (.http 401 "Identifiants invalides") := by
    rw [login]
    cases hf : st.users.find? (fun u => u.email == e1) with
    | none => rfl
    | some u =>
      have hu : u ∈ st.users := List.mem_of_find?_eq_some hf
      have heq : u.email = e1 := by
        have := List.find?_some hf
        simpa using this
      simp [hwrong u hu heq]
  exact ⟨h1, h2, h1.trans h2.symm⟩

/-- C8 witness: a concrete store with one user; wrong password and unknown
email give the identical 401. -/
theorem C8_witness :
    login stWUser "admin@x.com" "wrong" =
      .error (.http 401 "Identifiants invalides") ∧
    login stWUser "ghost@x.com" "whatever" =
      .error (.http 401 "Identifiants invalides") ∧
    login stWUser "admin@x.com" "wrong" = login stWUser "ghost@x.com" "whatever" :=
  C8_login_unauthorized_indistinguishable stWUser "admin@x.com" "wrong"
    "ghost@x.com" "whatever"
    ⟨{ name := "Admin", email := "admin@x.com", password := "s3cret" },
      by decide, rfl⟩
    (by decide) (by decide)

-- ---------------------------------------------------------------------------
-- C9
-- ---------------------------------------------------------------------------

/-- C9: for an id that is not a well-formed 24-hex ObjectId string,
`get_request`, `update_status` and `get_history` never produce the documented
404: `get_request` and `get_history` raise the unhandled ObjectId error, and
`update_status` raises it too once the status literal passed its (earlier)
check — with an invalid status it fails with 400 instead.  In no case does the
caller see the 404. -/
theorem C9_malformed_id_never_not_found (st : AppState) (rid s : String)
    (h : isValidObjectId rid = false) :
    get_request st rid = .error (.invalidObjectId rid) ∧
    get_history st rid = .error (.invalidObjectId rid) ∧
    (s ∈ okStatuses → update_status st rid s = .error (.invalidObjectId rid)) ∧
    (s ∉ okStatuses →
      update_status st rid s = .error (.http 400 "Statut invalide")) ∧
    get_request st rid ≠ .error (.http 404 "Demande introuvable") ∧
    get_history st rid ≠ .error (.http 404 "Demande introuvable") ∧
    update_status st rid s ≠ .error (.http 404 "Demande introuvable") := by
  have hg : get_request st rid = .error (.invalidObjectId rid) := by
    rw [get_request, if_neg (by simp [h])]
  have hh : get_history st rid = .error (.invalidObjectId rid) := by
    rw [get_history, if_neg (by simp [h])]
  have hu : ∀ s', update_status st rid s' ≠
      .error (.http 404 "Demande introuvable") := by
    intro s'
    rw [update_status]
    by_cases hs : s' ∈ okStatuses
    · rw [if_pos hs, if_neg (by simp [h])]
      simp
    · rw [if_neg hs]
      simp
  refine ⟨hg, hh, fun hs => ?_, fun hs => ?_, by simp [hg], by simp [hh], hu s⟩
  · rw [update_status, if_pos hs, if_neg (by simp [h])]
  · rw [update_status, if_neg hs]

/-- C9 witness: the malformed id "zzz" with both a valid and an invalid
status. -/
theorem C9_witness :
    get_request stW "zzz" = .error (.invalidObjectId "zzz") ∧
    get_history stW "zzz" = .error (.invalidObjectId "zzz") ∧
    update_status stW "zzz" "Annulé" = .error (.invalidObjectId "zzz") ∧
    update_status stW "zzz" "Annulé" ≠
      .error (.http 404 "Demande introuvable") :=
  ⟨(C9_malformed_id_never_not_found stW "zzz" "Annulé" (by decide)).1,
   (C9_malformed_id_never_not_found stW "zzz" "Annulé" (by decide)).2.1,
   (C9_malformed_id_never_not_found stW "zzz" "Annulé" (by decide)).2.2.1
     (by decide),
   (C9_malformed_id_never_not_found stW "zzz" "Annulé" (by decide)).2.2.2.2.2.2⟩

-- ---------------------------------------------------------------------------
-- C3
-- ---------------------------------------------------------------------------

/-- C3: every successful `setStatus` call appends exactly one new history
entry (globally — the log collection grows by that single record), the entry
is for the updated request's id (the parsed ObjectId, i.e. the canonical form
of the caller's id) and carries the applied status, and `getHistory` for that
id afterwards is its previous value plus that one entry, so its length grows
by exactly 1. -/
theorem C3_set_status_appends_one_history_entry (st st' : AppState)
    (rid s : String) (ok : Bool)
    (h : update_status st rid s = .ok (st', ok)) :
    ∃ before entry,
      get_history st rid = .ok before ∧
      st'.requestLogs = st.requestLogs ++ [entry] ∧
      entry.request_id = oidCanon rid ∧
      entry.status = s ∧
      get_history st' rid = .ok (before ++ [entry]) ∧
      (before ++ [entry]).length = before.length + 1 := by
  by_cases hs : s ∈ okStatuses
  · by_cases hv : isValidObjectId rid = true
    · by_cases hm : (st.requests.any fun d => d.oid == oidCanon rid) = true
      · rw [update_status, if_pos hs, if_pos hv, if_pos hm] at h
        simp only [Except.ok.injEq, Prod.mk.injEq] at h
        obtain ⟨hst, hok⟩ := h
        refine ⟨st.requestLogs.filter (fun l => l.request_id == oidCanon rid),
          { oid := genOid st.nextOid, request_id := oidCanon rid, status := s,
            timestamp := st.clock + 1 }, ?_, ?_, rfl, rfl, ?_, ?_⟩
        · rw [get_history, if_pos hv]
        · rw [← hst]
        · rw [get_history, if_pos hv, ← hst]
          simp [List.filter_append]
        · simp
      · rw [update_status, if_pos hs, if_pos hv, if_neg (by simp [hm])] at h
        exact absurd h (by simp)
    · rw [update_status, if_pos hs, if_neg hv] at h
      exact absurd h (by simp)
  · rw [update_status, if_neg hs] at h
    exact absurd h (by simp)

/-- The state after confirming `reqW` in `stW` (used by the C3 witness). -/
def stW3 : AppState :=
  match update_status stW (genOid 0) "Confirmé" with
  | .ok (s, _) => s
  | .error _ => emptyState

/-- C3 witness: confirming the one stored request at a concrete store. -/
theorem C3_witness :
    ∃ before entry,
      get_history stW (genOid 0) = .ok before ∧
      stW3.requestLogs = stW.requestLogs ++ [entry] ∧
      entry.request_id = oidCanon (genOid 0) ∧
      entry.status = "Confirmé" ∧
      get_history stW3 (genOid 0) = .ok (before ++ [entry]) ∧
      (before ++ [entry]).length = before.length + 1 :=
  C3_set_status_appends_one_history_entry stW stW3 (genOid 0) "Confirmé" true
    (by decide)

-- ---------------------------------------------------------------------------
-- C4
-- ---------------------------------------------------------------------------

/-- C4 counterexample: the claim says the assistant-created Request carries a
server-set UTC creation timestamp (creation "through section 4.3's
createRequest").  At the claim's own example input the assistant builds the
schemas.Request directly and hands it to the persistence gateway: a request is
created and its id returned, but its `created_at` is unset — there is no
creation timestamp. -/
theorem C4_counterexample :
    (assistant emptyState
        { message := "bonjour", name := some "Tom", email := some "tom@x.com",
          phone := some "0600000000", service := none }).2.created_request_id =
      some (genOid 0) ∧
    ((assistant emptyState
        { message := "bonjour", name := some "Tom", email := some "tom@x.com",
          phone := some "0600000000", service := none }).1.requests.map
        fun d => d.created_at) = [none] := by
  exact ⟨rfl, rfl⟩

/-- C4 (amended): for every assistant call whose inbound message carries a
non-empty name, email and phone, a new Request is persisted directly via the
persistence gateway with status "Nouveau" and the message text but with no
creation timestamp, its id is returned as a non-null `created_request_id`,
and a subsequent `getRequest` on that id returns the record with status
"Nouveau" and that message.  The freshness hypothesis states that the
store-generated id is new, spec §3's id-uniqueness guarantee. -/
theorem C4_assistant_creates_request (st : AppState) (m n e p : String)
    (hn : n ≠ "") (he : e ≠ "") (hp : p ≠ "")
    (hfresh : ∀ d ∈ st.requests, d.oid ≠ genOid st.nextOid) :
    (assistant st
        ({ message := m, name := some n, email := some e,
           phone := some p, service := none } : ChatMessage)).2.created_request_id =
      some (genOid st.nextOid) ∧
    get_request
        (assistant st
          ({ message := m, name := some n, email := some e,
             phone := some p, service := none } : ChatMessage)).1
        (genOid st.nextOid) =
      .ok { oid := genOid st.nextOid, name := n, email := e, phone := p,
            service_id := none, message := some m, status := "Nouveau",
            created_at := none, updated_at := none } := by
  have htr : (pyTruthy (some n) && pyTruthy (some e) && pyTruthy (some p))
      = true := by
    simp [pyTruthy, hn, he, hp]
  rw [assistant]
  simp only [htr, if_pos, create_document_request]
  constructor
  · trivial
  · rw [get_request, if_pos (isValidObjectId_genOid st.nextOid),
      oidCanon_genOid]
    have hnone : st.requests.find?
        (fun d => d.oid == genOid st.nextOid) = none := by
      rw [List.find?_eq_none]
      intro d hd
      simp [hfresh d hd]
    rw [List.find?_append, hnone]
    simp

/-- C4 witness: the claim's own example input at the empty store. -/
theorem C4_witness :
    (assistant emptyState
        { message := "bonjour", name := some "Tom", email := some "tom@x.com",
          phone := some "0600000000", service := none }).2.created_request_id =
      some (genOid 0) ∧
    get_request
        (assistant emptyState
          { message := "bonjour", name := some "Tom",
            email := some "tom@x.com", phone := some "0600000000",
            service := none }).1 (genOid 0) =
      .ok { oid := genOid 0, name := "Tom", email := "tom@x.com",
            phone := "0600000000", service_id := none,
            message := some "bonjour", status := "Nouveau",
            created_at := none, updated_at := none } :=
  C4_assistant_creates_request emptyState "bonjour" "Tom" "tom@x.com"
    "0600000000" (by decide) (by decide) (by decide) (by simp [emptyState])

-- ---------------------------------------------------------------------------
-- C5
-- ---------------------------------------------------------------------------

/-- C5 counterexample: the claim says that with a status filter the result
contains exactly the requests whose status equals the filter value.  With the
empty-string filter at a store holding one request of status "Nouveau", the
code treats the filter as absent (Python truthiness of `status`) and returns
that request, while the set of requests whose status equals "" is empty — so
the result is not even a permutation of it. -/
theorem C5_counterexample :
    ¬ ((list_requests stW (some "")).Perm
        (stW.requests.filter fun d => d.status == "")) := by
  intro hperm
  have h1 : (list_requests stW (some "")).Perm stW.requests :=
    List.mergeSort_perm stW.requests createdKeyGe
  have hl1 := h1.length_eq
  have hl2 := hperm.length_eq
  have e1 : stW.requests.length = 1 := rfl
  have e2 : (stW.requests.filter fun d => d.status == "").length = 0 := rfl
  omega

/-- C5 (amended): a non-empty status filter yields exactly the requests whose
status equals it; no filter — or the empty-string filter, which the code
treats as no filter — yields all requests; and in every case the result is
ordered by creation time descending, a missing creation timestamp acting as
the minimal (empty-string) key and therefore sorting last. -/
theorem C5_list_requests_filter_and_order (st : AppState) (f : Option String) :
    (∀ s, f = some s → s ≠ "" →
      (list_requests st f).Perm (st.requests.filter fun d => d.status == s)) ∧
    ((f = none ∨ f = some "") → (list_requests st f).Perm st.requests) ∧
    (list_requests st f).Pairwise (fun a b => createdKeyGe a b = true) ∧
    (list_requests st f).Pairwise
      (fun a b => a.created_at = none → b.created_at = none) := by
  have hsorted : (list_requests st f).Pairwise
      (fun a b => createdKeyGe a b = true) :=
    List.sorted_mergeSort createdKeyGe_trans createdKeyGe_total _
  refine ⟨?_, ?_, hsorted,
    hsorted.imp fun hab ha => createdKeyGe_none_right _ _ hab ha⟩
  · intro s hf hs
    subst hf
    simp only [list_requests, get_documents_request, hs, if_false,
      if_neg hs]
    exact List.mergeSort_perm _ _
  · rintro (rfl | rfl)
    · exact List.mergeSort_perm _ _
    · exact List.mergeSort_perm _ _

/-- C5 witness: the filtered and unfiltered conjuncts of
`C5_list_requests_filter_and_order` at a concrete store. -/
theorem C5_witness :
    (list_requests stW (some "Nouveau")).Perm
      (stW.requests.filter fun d => d.status == "Nouveau") ∧
    (list_requests stW none).Perm stW.requests :=
  ⟨(C5_list_requests_filter_and_order stW (some "Nouveau")).1 "Nouveau" rfl
      (by decide),
   (C5_list_requests_filter_and_order stW none).2.1 (Or.inl rfl)⟩

-- ---------------------------------------------------------------------------
-- C6
-- ---------------------------------------------------------------------------

/-- C6: when the message hits the hours branch but no FAQ question contains
"horaire", or hits the location branch (no hours or pricing keyword) but the
location lookup misses, the loop breaks with `reply` unset: steps 1-3 produce
no reply and the final reply is the service-suggestion step's output or,
failing that, the greeting fallback. -/
theorem C6_keyword_hit_lookup_miss_falls_through (c : Content) (text : String)
    (hfaq : c.faq ≠ [])
    (hcase :
      (anyKeyword hoursKeywords text = true ∧ faqHoursLookup c.faq = none) ∨
      (anyKeyword hoursKeywords text = false ∧
       anyKeyword priceKeywords text = false ∧
       anyKeyword locKeywords text = true ∧ faqLocLookup c.faq = none)) :
    faqLoopStep c text = none ∧
    assistant_reply c text =
      (match serviceStep c text with
       | some r => r
       | none => fallbackGreeting c) := by
  have hne : c.faq.isEmpty = false := by
    cases hl : c.faq with
    | nil => exact absurd hl hfaq
    | cons a l => rfl
  have hstep : faqLoopStep c text = none := by
    rcases hcase with ⟨h1, h2⟩ | ⟨h1, h2, h3, h4⟩
    · simp [faqLoopStep, hne, h1, h2]
    · simp [faqLoopStep, hne, h1, h2, h3, h4]
  exact ⟨hstep, assistant_reply_of_faqLoopStep_none c text hstep⟩

/-- Content for the C6 witness: a non-empty FAQ with no hours entry. -/
def contentW6 : Content :=
  { intro := "", faq := [{ q := "Autre question", a := "Autre texte" }],
    services := [], horaires := none, localisation := none, metier := none,
    owner := none, assistant := none }

/-- C6 witness: a message carrying the hours keyword against a FAQ with no
matching entry — the reply falls through to the greeting fallback. -/
theorem C6_witness :
    faqLoopStep contentW6 "vos horaires" = none ∧
    assistant_reply contentW6 "vos horaires" =
      (match serviceStep contentW6 "vos horaires" with
       | some r => r
       | none => fallbackGreeting contentW6) :=
  C6_keyword_hit_lookup_miss_falls_through contentW6 "vos horaires"
    (by decide) (Or.inl ⟨by decide, by decide⟩)

-- ---------------------------------------------------------------------------
-- C7
-- ---------------------------------------------------------------------------

/-- The onboarding payload of the claim's round-trip. -/
def payloadClaire : OnboardingPayload :=
  { nom := "Claire", metier := "coiffeuse", localisation := "Lyon",
    services := ["Coupe", "Couleur"], horaires := "Lun-Ven 9h-18h" }

/-- The business document the onboarding of `payloadClaire` persists. -/
def bizClaire (oid : String) : BusinessDoc :=
  { oid := oid, owner_name := "Claire", metier := "coiffeuse",
    localisation := "Lyon", services := ["Coupe", "Couleur"],
    horaires := "Lun-Ven 9h-18h",
    intro_paragraph := generate_intro "Claire" "coiffeuse" "Lyon",
    faq := generate_faq "Claire" "coiffeuse" "Lyon" "Lun-Ven 9h-18h",
    service_descriptions := generate_service_descriptions ["Coupe", "Couleur"],
    assistant_responses := generate_assistant_responses "coiffeuse" }

/-- The content `GET /api/content` serves once `payloadClaire` is the latest
onboarded profile. -/
def contentClaire : Content :=
  { intro := generate_intro "Claire" "coiffeuse" "Lyon",
    faq := generate_faq "Claire" "coiffeuse" "Lyon" "Lun-Ven 9h-18h",
    services := generate_service_descriptions ["Coupe", "Couleur"],
    horaires := some "Lun-Ven 9h-18h", localisation := some "Lyon",
    metier := some "coiffeuse", owner := some "Claire", assistant := none }

/-- C7: onboarding Claire's profile and then reading the content returns an
intro paragraph containing "Claire", "coiffeuse" and "Lyon" verbatim, an FAQ
of length exactly 4, and exactly the two service descriptions titled "Coupe"
and "Couleur" in that order — from any prior store state. -/
theorem C7_onboarding_content_roundtrip (st : AppState) :
    containsSub (get_content (onboarding st payloadClaire).1).intro "Claire"
      = true ∧
    containsSub (get_content (onboarding st payloadClaire).1).intro "coiffeuse"
      = true ∧
    containsSub (get_content (onboarding st payloadClaire).1).intro "Lyon"
      = true ∧
    (get_content (onboarding st payloadClaire).1).faq.length = 4 ∧
    ((get_content (onboarding st payloadClaire).1).services.map fun s => s.title)
      = ["Coupe", "Couleur"] := by
  have hb : (onboarding st payloadClaire).1.businesses =
      st.businesses ++ [bizClaire (genOid st.nextOid)] :=
    rfl
  have hc : get_content (onboarding st payloadClaire).1 = contentClaire := by
    unfold get_content latestBusiness
    rw [hb, List.getLast?_concat]
    rfl
  rw [hc]
  refine ⟨by decide, by decide, by decide, by decide, by decide⟩

-- ---------------------------------------------------------------------------
-- C10
-- ---------------------------------------------------------------------------

/-- C10: the hours, pricing and location branches live only inside the loop
over the current content's FAQ list; when that list is empty the loop body
never runs, so none of the three branches can set a reply — even for a
pricing keyword, whose reply is a fixed string independent of the FAQ — and
the endpoint's reply comes from the service-suggestion step or the greeting
fallback. -/
theorem C10_empty_faq_bypasses_keyword_branches (st : AppState)
    (msg : ChatMessage) (hfaq : (get_content st).faq = []) :
    faqLoopStep (get_content st) (pyLower msg.message) = none ∧
    (assistant st msg).2.reply =
      (match serviceStep (get_content st) (pyLower msg.message) with
       | some r => r
       | none => fallbackGreeting (get_content st)) := by
  have h1 : faqLoopStep (get_content st) (pyLower msg.message) = none := by
    simp [faqLoopStep, hfaq]
  have h2 : (assistant st msg).2.reply =
      assistant_reply (get_content st) (pyLower msg.message) := by
    unfold assistant
    split
    · rfl
    · rfl
  rw [h2]
  exact ⟨h1, assistant_reply_of_faqLoopStep_none _ _ h1⟩

/-- A business profile whose stored FAQ list is empty (used by the C10
witness). -/
def bizW10 : BusinessDoc :=
  { oid := genOid 0, owner_name := "O", metier := "menuisier",
    localisation := "Paris", services := [], horaires := "Lun 9h-12h",
    intro_paragraph := "Bienvenue", faq := [], service_descriptions := [],
    assistant_responses := [] }

/-- A store whose current content has an empty FAQ list. -/
def stW10 : AppState :=
  { emptyState with businesses := [bizW10], nextOid := 1 }

/-- C10 witness: a message containing the pricing keyword "prix" against a
content with an empty FAQ — the fixed pricing reply is unreachable and the
reply falls through. -/
theorem C10_witness :
    faqLoopStep (get_content stW10) (pyLower "quel est le prix ?") = none ∧
    (assistant stW10 { message := "quel est le prix ?" }).2.reply =
      (match serviceStep (get_content stW10) (pyLower "quel est le prix ?") with
       | some r => r
       | none => fallbackGreeting (get_content stW10)) :=
  C10_empty_faq_bypasses_keyword_branches stW10
    { message := "quel est le prix ?" } (by decide)

end Backend
